import Mathlib

/-!
Verification development for the Voltagent backend's natural-language-to-SQL
pipeline (src/src/agents/sqlGeneratorAgent.ts, src/src/tools/smartQueryTool.ts,
the two bundled index.ts variants, and the earlier tool variant in
src/unnamed/part_000).

The two external collaborators — the text-generation model behind
`sqlGeneratorAgent.generateText` / `mainAgent.generateText` and the Neon
database driver behind `sql.query` — are modelled as function parameters
(`GenBehavior`, `DbBehavior`).  The JavaScript runtime primitives the sources
lean on (`JSON.parse`, untyped property access after the `as SQLQuery` cast,
`parseInt`, `String.prototype.replace` with the handlers' literal regexes,
`trim`) are embedded below on the fragment of behaviour those sources
exercise; each such definition carries a comment naming its source location
and the modelled fragment.  Every pipeline function is paired with the trace
of collaborator calls it performs, so that statements of the form "the
database collaborator is (not) reached" are directly expressible.
-/

set_option maxRecDepth 100000

namespace Voltagent

/-- JSON value as produced by the JavaScript builtin JSON.parse.  Numbers are
restricted to integers: the only numbers the pipeline and its collaborators
exchange (ids, counts, parameter scalars). -/
inductive Json where
  | null : Json
  | bool (b : Bool) : Json
  | num (n : Int) : Json
  | str (s : String) : Json
  | arr (elems : List Json) : Json
  | obj (fields : List (String × Json)) : Json

/-- Whitespace skipped by the JSON grammar. -/
def skipWs : List Char → List Char
  | [] => []
  | c :: cs => if c = ' ' ∨ c = '\n' ∨ c = '\t' ∨ c = '\r' then skipWs cs else c :: cs

/-- Boolean test that the first list is an initial segment of the second. -/
def startsWithChars : List Char → List Char → Bool
  | p :: ps, c :: cs => p == c && startsWithChars ps cs
  | ps, _ => ps.isEmpty

/-- Longest digit run at the head of the input, with the remainder. -/
def takeDigits : List Char → List Char × List Char
  | [] => ([], [])
  | c :: cs =>
    if c.isDigit then
      let (ds, rest) := takeDigits cs
      (c :: ds, rest)
    else ([], c :: cs)

/-- Numeric value of a digit run. -/
def digitsToNat (ds : List Char) : Nat :=
  ds.foldl (fun acc c => acc * 10 + (c.toNat - 48)) 0

/-- Table of single-character JSON escapes (escape letter, denoted char). -/
def escTable : List (Char × Char) :=
  [('n', '\n'), ('t', '\t'), ('r', '\r'), ('b', Char.ofNat 8), ('f', Char.ofNat 12),
   ('"', '"'), ('\\', '\\'), ('/', '/')]

/-- Translation of a single-character JSON escape. -/
def escChar (e : Char) : Option Char :=
  (escTable.find? (fun p => p.1 == e)).map (fun p => p.2)

/-- Body of a JSON string after its opening quote, accumulating translated
characters (the modelled fragment excludes the \u escape form, which none of
the exchanged payloads use). -/
def parseStringRest : List Char → List Char → Except String (String × List Char)
  | _, [] => Except.error "Unterminated string in JSON"
  | acc, '"' :: cs => Except.ok (String.mk acc.reverse, cs)
  | _, ['\\'] => Except.error "Unterminated string in JSON"
  | acc, '\\' :: e :: cs =>
    match escChar e with
    | some ch => parseStringRest (ch :: acc) cs
    | none => Except.error "Unsupported escape in JSON string"
  | acc, c :: cs => parseStringRest (c :: acc) cs

mutual

/-- JSON value parser, fueled (the fuel chosen by parseJson exceeds the
number of recursive calls any input can trigger, so the fuel branch is
unreachable there). -/
def parseValueFuel : Nat → List Char → Except String (Json × List Char)
  | 0, _ => Except.error "JSON nesting limit"
  | f + 1, cs =>
    match skipWs cs with
    | [] => Except.error "Unexpected end of JSON input"
    | c :: rest =>
      if c = '\x7b' then
        match skipWs rest with
        | '\x7d' :: rest1 => Except.ok (Json.obj [], rest1)
        | rest1 => parseMembersFuel f [] rest1
      else if c = '[' then
        match skipWs rest with
        | ']' :: rest1 => Except.ok (Json.arr [], rest1)
        | rest1 => parseElemsFuel f [] rest1
      else if c = '"' then
        match parseStringRest [] rest with
        | Except.error e => Except.error e
        | Except.ok (s, rest1) => Except.ok (Json.str s, rest1)
      else if c = 't' then
        if startsWithChars ['r', 'u', 'e'] rest then Except.ok (Json.bool true, rest.drop 3)
        else Except.error "Unexpected token in JSON"
      else if c = 'f' then
        if startsWithChars ['a', 'l', 's', 'e'] rest then Except.ok (Json.bool false, rest.drop 4)
        else Except.error "Unexpected token in JSON"
      else if c = 'n' then
        if startsWithChars ['u', 'l', 'l'] rest then Except.ok (Json.null, rest.drop 3)
        else Except.error "Unexpected token in JSON"
      else if c = '-' then
        match takeDigits rest with
        | ([], _) => Except.error "Unexpected token in JSON"
        | (ds, rest1) => Except.ok (Json.num (-(digitsToNat ds : Int)), rest1)
      else if c.isDigit then
        match takeDigits (c :: rest) with
        | (ds, rest1) => Except.ok (Json.num (digitsToNat ds : Int), rest1)
      else Except.error "Unexpected token in JSON"

/-- Members of a JSON object, positioned where a key is expected. -/
def parseMembersFuel : Nat → List (String × Json) → List Char → Except String (Json × List Char)
  | 0, _, _ => Except.error "JSON nesting limit"
  | f + 1, acc, cs =>
    match skipWs cs with
    | '"' :: rest =>
      match parseStringRest [] rest with
      | Except.error e => Except.error e
      | Except.ok (key, rest1) =>
        match skipWs rest1 with
        | ':' :: rest2 =>
          match parseValueFuel f rest2 with
          | Except.error e => Except.error e
          | Except.ok (v, rest3) =>
            match skipWs rest3 with
            | ',' :: rest4 => parseMembersFuel f ((key, v) :: acc) rest4
            | '\x7d' :: rest4 => Except.ok (Json.obj ((key, v) :: acc).reverse, rest4)
            | _ => Except.error "Expected comma or closing brace in JSON object"
        | _ => Except.error "Expected colon in JSON object"
    | _ => Except.error "Expected string key in JSON object"

/-- Elements of a JSON array, positioned where a value is expected. -/
def parseElemsFuel : Nat → List Json → List Char → Except String (Json × List Char)
  | 0, _, _ => Except.error "JSON nesting limit"
  | f + 1, acc, cs =>
    match parseValueFuel f cs with
    | Except.error e => Except.error e
    | Except.ok (v, rest) =>
      match skipWs rest with
      | ',' :: rest1 => parseElemsFuel f (v :: acc) rest1
      | ']' :: rest1 => Except.ok (Json.arr (v :: acc).reverse, rest1)
      | _ => Except.error "Expected comma or closing bracket in JSON array"

end

/-- Models the JavaScript builtin JSON.parse on the fragment the pipeline
exchanges (integer numbers, no \u escapes, no duplicate object keys).  A
value followed by trailing non-whitespace is rejected, as JSON.parse
rejects it. -/
def parseJson (s : String) : Except String Json :=
  match parseValueFuel (2 * s.length + 4) s.data with
  | Except.error e => Except.error e
  | Except.ok (j, rest) =>
    if (skipWs rest).isEmpty then Except.ok j
    else Except.error "Unexpected non-whitespace character after JSON data"

/-- JavaScript value as observed through the untyped `as SQLQuery` cast:
either a JSON value or undefined (a missing property). -/
inductive JsValue where
  | undef : JsValue
  | val (j : Json) : JsValue

/-- JavaScript property access `o[k]` on a JSON.parse result: the field's
value on an object that has the key, undefined otherwise (non-object,
non-null receivers yield undefined; the null receiver is handled before this
is reached, since dereferencing null throws). -/
def jsFieldD : Json → String → JsValue
  | Json.obj fields, k =>
    match fields.find? (fun f => f.1 == k) with
    | some f => JsValue.val f.2
    | none => JsValue.undef
  | _, _ => JsValue.undef

/-- Lookup of a key in a JavaScript object literal whose values may be
undefined (the shape of the tool's return value). -/
def jsLookup (o : List (String × JsValue)) (k : String) : Option JsValue :=
  (o.find? (fun f => f.1 == k)).map (fun f => f.2)

/-- Lookup of a key in a JSON object (none on any other value). -/
def jsonLookup : Json → String → Option Json
  | Json.obj fields, k => (fields.find? (fun f => f.1 == k)).map (fun f => f.2)
  | _, _ => none

/-- Boolean substring test (needle occurs contiguously in the haystack). -/
def charsContain (needle : List Char) : List Char → Bool
  | [] => needle.isEmpty
  | c :: cs => startsWithChars needle (c :: cs) || charsContain needle cs

/-- Boolean substring test on strings. -/
def strContains (hay needle : String) : Bool := charsContain needle.data hay.data

/-- The closed operation enumeration of sqlQuerySchema
(sqlGeneratorAgent.ts line 14, the z.enum argument). -/
def allowedOperations : List String := ["SELECT", "INSERT", "UPDATE", "DELETE"]

/-- Instruction prompt of sqlGeneratorAgent (sqlGeneratorAgent.ts lines
22-77), transcribed line by line exactly as the template literal reads. -/
def sqlGeneratorInstructionLines : List String :=
  ["You are an expert PostgreSQL query generator for the Neon serverless database.",
   "",
   "        DATABASE SCHEMA:",
   "        Table: users",
   "        - id: SERIAL PRIMARY KEY",
   "        - name: TEXT NOT NULL",
   "        - email: TEXT UNIQUE NOT NULL",
   "        - created_at: TIMESTAMP DEFAULT CURRENT_TIMESTAMP",
   "        - updated_at: TIMESTAMP DEFAULT CURRENT_TIMESTAMP",
   "",
   "        CRITICAL RULES:",
   "        1. Use parameterized queries with $1, $2, etc. placeholders for user input",
   "        2. NEVER include user input directly in the SQL string",
   "        3. Use ILIKE for case-insensitive searches",
   "        4. Include ORDER BY and LIMIT for SELECT queries",
   "        5. Use RETURNING * for INSERT, UPDATE, DELETE operations",
   "        6. For pattern matching, include % wildcards in parameters array",
   "",
   "        EXAMPLES:",
   "",
   "        Input: \"show all users\"",
   "        Output: \x7b",
   "        \"query\": \"SELECT * FROM users ORDER BY created_at DESC LIMIT 100\",",
   "        \"parameters\": [],",
   "        \"operation\": \"SELECT\"",
   "        \x7d",
   "",
   "        Input: \"find user named john\"",
   "        Output: \x7b",
   "        \"query\": \"SELECT * FROM users WHERE name ILIKE $1 ORDER BY created_at DESC\",",
   "        \"parameters\": [\"%john%\"],",
   "        \"operation\": \"SELECT\"",
   "        \x7d",
   "",
   "        Input: \"add user John Doe with email john@example.com\"",
   "        Output: \x7b",
   "        \"query\": \"INSERT INTO users (name, email) VALUES ($1, $2) RETURNING *\",",
   "        \"parameters\": [\"John Doe\", \"john@example.com\"],",
   "        \"operation\": \"INSERT\"",
   "        \x7d",
   "",
   "        Input: \"delete user with id 5\"",
   "        Output: \x7b",
   "        \"query\": \"DELETE FROM users WHERE id = $1 RETURNING *\",",
   "        \"parameters\": [5],",
   "        \"operation\": \"DELETE\"",
   "        \x7d",
   "",
   "        Input: \"update user 3 set name to Jane Smith\"",
   "        Output: \x7b",
   "        \"query\": \"UPDATE users SET name = $1, updated_at = CURRENT_TIMESTAMP WHERE id = $2 RETURNING *\",",
   "        \"parameters\": [\"Jane Smith\", 3],",
   "        \"operation\": \"UPDATE\"",
   "        \x7d",
   "",
   "        IMPORTANT: Always return valid JSON matching the schema."]

/-- The SQLQuery shape (z.infer of sqlQuerySchema, sqlGeneratorAgent.ts
lines 11-18).  Because the runtime path is `JSON.parse(result.text) as
SQLQuery` — a compile-time cast with no runtime check — each field holds
whatever JavaScript value the parsed payload carries there, possibly
undefined. -/
structure SQLQuery where
  query : JsValue
  parameters : JsValue
  operation : JsValue
  explanation : JsValue

/-- The text-generation collaborator: request text in, raw reply text out,
or a raised error (models `agent.generateText(...)` followed by reading
`.text`, per spec section 6). -/
def GenBehavior := String → Except String String

/-- The database collaborator: statement and parameters in (whatever
JavaScript values the caller passes), ordered row sequence out, or a raised
error with a human-readable message (models neon's `sql.query`, per spec
section 6). -/
def DbBehavior := JsValue → JsValue → Except String (List Json)

/-- generateSQLQuery (sqlGeneratorAgent.ts lines 82-97): invoke the
generation collaborator, JSON.parse its reply text, and cast the result to
SQLQuery with no runtime validation.  A null payload faults when the
logging statement on lines 89-94 dereferences its fields; any thrown error
(collaborator failure, parse failure, null dereference) propagates to the
caller. -/
def generateSQLQuery (gen : GenBehavior) (request : String) : Except String SQLQuery :=
  match gen request with
  | Except.error e => Except.error e
  | Except.ok text =>
    match parseJson text with
    | Except.error e => Except.error e
    | Except.ok Json.null => Except.error "Cannot read properties of null"
    | Except.ok j =>
      Except.ok
        { query := jsFieldD j "query", parameters := jsFieldD j "parameters",
          operation := jsFieldD j "operation", explanation := jsFieldD j "explanation" }

/-- One call made to an external collaborator during a request. -/
inductive CollabCall where
  | genCall (prompt : String) : CollabCall
  | dbCall (statement : JsValue) (params : JsValue) : CollabCall

/-- The JavaScript object literal a tool execution returns (values may be
undefined, e.g. an echoed operation field that the payload lacked). -/
def ToolResult := List (String × JsValue)

/-- executeSmartQueryTool.execute (smartQueryTool.ts lines 15-42), paired
with the trace of collaborator calls it makes: generate the SQLQuery, pass
its query text and parameters positionally to the database collaborator,
and wrap the outcome; any caught error becomes the failure object with the
error's message. -/
def executeSmartQuery (gen : GenBehavior) (db : DbBehavior) (naturalQuery : String) :
    ToolResult × List CollabCall :=
  match generateSQLQuery gen naturalQuery with
  | Except.error e =>
    ([("success", JsValue.val (Json.bool false)), ("error", JsValue.val (Json.str e))],
     [CollabCall.genCall naturalQuery])
  | Except.ok q =>
    match db q.query q.parameters with
    | Except.error e =>
      ([("success", JsValue.val (Json.bool false)), ("error", JsValue.val (Json.str e))],
       [CollabCall.genCall naturalQuery, CollabCall.dbCall q.query q.parameters])
    | Except.ok rows =>
      ([("success", JsValue.val (Json.bool true)),
        ("users", JsValue.val (Json.arr rows)),
        ("count", JsValue.val (Json.num (rows.length : Int))),
        ("message", JsValue.val (Json.str ("Retrieved " ++ toString rows.length ++ " users"))),
        ("operation", q.operation)],
       [CollabCall.genCall naturalQuery, CollabCall.dbCall q.query q.parameters])

/-- executeSmartQueryTool.execute, earlier variant (src/unnamed/part_000
lines 17-39): identical control flow, but the success object carries no
operation field. -/
def executeSmartQueryV0 (gen : GenBehavior) (db : DbBehavior) (naturalQuery : String) :
    ToolResult × List CollabCall :=
  match generateSQLQuery gen naturalQuery with
  | Except.error e =>
    ([("success", JsValue.val (Json.bool false)), ("error", JsValue.val (Json.str e))],
     [CollabCall.genCall naturalQuery])
  | Except.ok q =>
    match db q.query q.parameters with
    | Except.error e =>
      ([("success", JsValue.val (Json.bool false)), ("error", JsValue.val (Json.str e))],
       [CollabCall.genCall naturalQuery, CollabCall.dbCall q.query q.parameters])
    | Except.ok rows =>
      ([("success", JsValue.val (Json.bool true)),
        ("users", JsValue.val (Json.arr rows)),
        ("count", JsValue.val (Json.num (rows.length : Int))),
        ("message", JsValue.val (Json.str ("Retrieved " ++ toString rows.length ++ " users")))],
       [CollabCall.genCall naturalQuery, CollabCall.dbCall q.query q.parameters])

/-- Left-to-right scan modelling `text.replace(/```json|```/g, "")` from the
first /api/command handler: at each position the longer alternative is
preferred, matches are deleted, everything else is kept. -/
def stripFencesScan : Nat → List Char → List Char
  | 0, cs => cs
  | _ + 1, [] => []
  | f + 1, c :: cs =>
    if startsWithChars ("```json".data) (c :: cs) then stripFencesScan f ((c :: cs).drop 7)
    else if startsWithChars ("```".data) (c :: cs) then stripFencesScan f ((c :: cs).drop 3)
    else c :: stripFencesScan f cs

/-- Whitespace as JavaScript's trim removes it (the forms occurring here). -/
def jsWs (c : Char) : Bool := [' ', '\n', '\t', '\r'].contains c

/-- `String.prototype.trim`: strip whitespace from both ends. -/
def jsTrim (s : String) : String :=
  String.mk (((s.data.dropWhile jsWs).reverse.dropWhile jsWs).reverse)

/-- `response.text.replace(/```json|```/g, "").trim()` (index.ts first
variant, line 207). -/
def stripFences (s : String) : String :=
  jsTrim (String.mk (stripFencesScan s.length s.data))

/-- The JavaScript fallback `error.message || "Failed to process command"`
in the first /api/command catch block: an empty message is falsy. -/
def commandErrMessage (e : String) : String :=
  if e = "" then "Failed to process command" else e

/-- An HTTP response as produced by `c.json(body, status?)`: status code and
JSON body (the default status is 200). -/
def HttpResponse := Nat × Json

/-- /api/command handler, first index.ts variant (lines 198-218): the whole
body sits in a try/catch, so an agent failure or a JSON.parse failure of the
fence-stripped reply yields the 500 failure envelope; a parseable reply is
returned verbatim as the response body. -/
def apiCommandV1 (agent : GenBehavior) (input : String) : HttpResponse :=
  match agent input with
  | Except.error e =>
    (500, Json.obj [("success", Json.bool false), ("error", Json.str (commandErrMessage e))])
  | Except.ok text =>
    match parseJson (stripFences text) with
    | Except.error e =>
      (500, Json.obj [("success", Json.bool false), ("error", Json.str (commandErrMessage e))])
    | Except.ok parsed => (200, parsed)

/-- /api/command handler, second index.ts variant (lines 346-353): no
try/catch, so an agent failure or a JSON.parse failure propagates out of the
handler as an unhandled fault (the Except.error case). -/
def apiCommandV2 (agent : GenBehavior) (input : String) : Except String HttpResponse :=
  match agent input with
  | Except.error e => Except.error e
  | Except.ok text =>
    match parseJson (stripFences text) with
    | Except.error e => Except.error e
    | Except.ok parsed => Except.ok (200, parsed)

/-- The fixed statement of the first variant's /api/stats handler (index.ts
lines 234-236; the template literal's surrounding whitespace is elided). -/
def statsQueryText : String :=
  "SELECT  COUNT(*) as total_users, COUNT(*) FILTER (WHERE created_at > NOW() - INTERVAL \x277 days\x27) as recent_users, COUNT(*) FILTER (WHERE created_at::date = CURRENT_DATE) as today_users FROM users"

/-- Leading integer of a string after optional whitespace and sign, none
when no digits follow (the string case of JavaScript's parseInt). -/
def parseLeadingInt (s : String) : Option Int :=
  match skipWs s.data with
  | '-' :: rest =>
    match takeDigits rest with
    | ([], _) => none
    | (ds, _) => some (-(digitsToNat ds : Int))
  | '+' :: rest =>
    match takeDigits rest with
    | ([], _) => none
    | (ds, _) => some (digitsToNat ds : Int)
  | cs =>
    match takeDigits cs with
    | ([], _) => none
    | (ds, _) => some (digitsToNat ds : Int)

/-- JavaScript `parseInt` applied to a stats row field, with NaN rendered as
Json.null (its JSON serialization); modelled on the scalar values a count
row carries — neon returns the COUNT aggregates as numeric strings. -/
def parseIntJs : JsValue → Json
  | JsValue.val (Json.str s) =>
    match parseLeadingInt s with
    | some n => Json.num n
    | none => Json.null
  | JsValue.val (Json.num n) => Json.num n
  | _ => Json.null

/-- /api/stats handler, first index.ts variant (lines 232-244), paired with
its collaborator-call trace: issue the fixed statement through the database
collaborator, read the first row, parseInt its three count fields, and wrap
them; any thrown error (collaborator failure, or the dereference of
`result[0]` when the row set is empty) is caught into the 500 envelope. -/
def apiStatsV1 (db : DbBehavior) : HttpResponse × List CollabCall :=
  match db (JsValue.val (Json.str statsQueryText)) (JsValue.val (Json.arr [])) with
  | Except.error e =>
    ((500, Json.obj [("success", Json.bool false), ("error", Json.str e)]),
     [CollabCall.dbCall (JsValue.val (Json.str statsQueryText)) (JsValue.val (Json.arr []))])
  | Except.ok [] =>
    ((500, Json.obj [("success", Json.bool false),
        ("error", Json.str "Cannot read properties of undefined (reading \x27total_users\x27)")]),
     [CollabCall.dbCall (JsValue.val (Json.str statsQueryText)) (JsValue.val (Json.arr []))])
  | Except.ok (row :: _) =>
    ((200, Json.obj [("success", Json.bool true),
        ("stats", Json.obj
          [("total_users", parseIntJs (jsFieldD row "total_users")),
           ("recent_users", parseIntJs (jsFieldD row "recent_users")),
           ("today_users", parseIntJs (jsFieldD row "today_users"))])]),
     [CollabCall.dbCall (JsValue.val (Json.str statsQueryText)) (JsValue.val (Json.arr []))])

/-- Left-to-right scan modelling the second variant's
`result.text.replace(/```json\n?|\n?```/g, "")` (index.ts line 375): each
alternative is tried with its optional newline first. -/
def stripFencesScanV2 : Nat → List Char → List Char
  | 0, cs => cs
  | _ + 1, [] => []
  | f + 1, c :: cs =>
    if startsWithChars ("```json\n".data) (c :: cs) then stripFencesScanV2 f ((c :: cs).drop 8)
    else if startsWithChars ("```json".data) (c :: cs) then stripFencesScanV2 f ((c :: cs).drop 7)
    else if startsWithChars ("\n```".data) (c :: cs) then stripFencesScanV2 f ((c :: cs).drop 4)
    else if startsWithChars ("```".data) (c :: cs) then stripFencesScanV2 f ((c :: cs).drop 3)
    else c :: stripFencesScanV2 f cs

/-- The second variant's fence stripping followed by `.trim()`. -/
def stripFencesV2 (s : String) : String :=
  jsTrim (String.mk (stripFencesScanV2 s.length s.data))

/-- /api/stats handler, second index.ts variant (lines 368-388), paired with
its collaborator-call trace: it does not issue a fixed statement at all but
asks the main agent (`mainAgent.generateText("Get database statistics")`);
an unparseable reply becomes the fixed inner fallback envelope with status
200, a collaborator failure becomes the 500 envelope. -/
def apiStatsV2 (gen : GenBehavior) : HttpResponse × List CollabCall :=
  match gen "Get database statistics" with
  | Except.error e =>
    ((500, Json.obj [("success", Json.bool false), ("error", Json.str e)]),
     [CollabCall.genCall "Get database statistics"])
  | Except.ok text =>
    match parseJson (stripFencesV2 text) with
    | Except.error _ =>
      ((200, Json.obj [("success", Json.bool false), ("error", Json.str "Failed to get statistics")]),
       [CollabCall.genCall "Get database statistics"])
    | Except.ok parsed => ((200, parsed), [CollabCall.genCall "Get database statistics"])

/-- Positional placeholder indices occurring in a SQL text: every maximal
digit run immediately following a dollar sign (claim formalization for the
placeholder/parameter agreement property). -/
def placeholderScan : Nat → List Char → List Nat
  | 0, _ => []
  | _ + 1, [] => []
  | f + 1, c :: cs =>
    if c = '$' then
      match takeDigits cs with
      | ([], _) => placeholderScan f cs
      | (ds, rest) => digitsToNat ds :: placeholderScan f rest
    else placeholderScan f cs

/-- Placeholder indices of a statement string. -/
def placeholderIndices (s : String) : List Nat := placeholderScan s.length s.data

/-- The placeholder set of `stmt` is exactly 1..n — contiguous, no gaps, no
unused trailing parameters (the property claimed of validated queries). -/
def placeholdersMatch (stmt : String) (n : Nat) : Bool :=
  ((List.range n).map (fun i => i + 1)).all (fun i => (placeholderIndices stmt).contains i) &&
  (placeholderIndices stmt).all (fun i => decide (1 ≤ i) && decide (i ≤ n))

/-- Whether an operation value lies in the closed zod enumeration (claim
formalization for the operation-whitelist property). -/
def opAllowed : JsValue → Bool
  | JsValue.val (Json.str s) => allowedOperations.contains s
  | _ => false

/-- The injection utterance of the spec's testable-properties section: its
free-text value is the quoted fragment beginning with a single quote. -/
def injectionUtterance : String := "find user \x27; DROP TABLE users; \x2d\x2d"

/-- The statement a prompt-disobeying generation reply produces by inlining
the utterance's free text. -/
def injectedStatement : String := "SELECT * FROM users WHERE name = \x27; DROP TABLE users; \x2d\x2d"

/-- A generation reply that copies the utterance's free text verbatim into
the query field instead of routing it through parameters. -/
def genReplyInject : String :=
  "\x7b\"query\":\"SELECT * FROM users WHERE name = \x27; DROP TABLE users; \x2d\x2d\",\"parameters\":[],\"operation\":\"SELECT\",\"explanation\":\"find user\"\x7d"

/-- A well-formed generation reply (the spec's end-to-end scenario 1). -/
def genReplyGood : String :=
  "\x7b\"query\":\"SELECT * FROM users ORDER BY created_at DESC LIMIT 100\",\"parameters\":[],\"operation\":\"SELECT\",\"explanation\":\"list users\"\x7d"

/-- A generation reply whose placeholder set is \x7b2\x7d, not \x7b1\x7d,
for its single parameter. -/
def genReplyMismatch : String :=
  "\x7b\"query\":\"SELECT * FROM users WHERE id = $2\",\"parameters\":[5],\"operation\":\"SELECT\",\"explanation\":\"get user\"\x7d"

/-- A generation reply whose operation value lies outside the closed
four-value enumeration. -/
def genReplyBadOp : String :=
  "\x7b\"query\":\"TRUNCATE users\",\"parameters\":[],\"operation\":\"TRUNCATE\",\"explanation\":\"clear\"\x7d"

/-- A generation reply for a DELETE (the spec's end-to-end scenario 3). -/
def genReplyDelete : String :=
  "\x7b\"query\":\"DELETE FROM users WHERE id = $1 RETURNING *\",\"parameters\":[5],\"operation\":\"DELETE\",\"explanation\":\"delete user 5\"\x7d"

/-- A database collaborator that succeeds with an empty row set. -/
def dbEmpty : DbBehavior := fun _ _ => Except.ok []

/-- A user row as the database collaborator returns it. -/
def sampleUserRow : Json :=
  Json.obj [("id", Json.num 1), ("name", Json.str "Ann"), ("email", Json.str "ann@example.com")]

/-- A stats row as the database collaborator returns it (neon delivers the
COUNT aggregates as numeric strings). -/
def statsRow : Json :=
  Json.obj [("total_users", Json.str "5"), ("recent_users", Json.str "2"),
    ("today_users", Json.str "1")]

/-- Helper: whenever generation succeeds, the tool calls the generation
collaborator and then the database collaborator, the latter with exactly the
generated query and parameters. -/
theorem executeSmartQuery_trace (gen : GenBehavior) (db : DbBehavior) (nq : String)
    (q : SQLQuery) (h : generateSQLQuery gen nq = Except.ok q) :
    (executeSmartQuery gen db nq).2 =
      [CollabCall.genCall nq, CollabCall.dbCall q.query q.parameters] := by
  unfold executeSmartQuery
  rw [h]
  cases hdb : db q.query q.parameters <;> simp [hdb]

/-- C1 (amended): the runtime code enforces no injection safety of its own —
whenever generation succeeds, the statement handed to the database
collaborator is verbatim the collaborator-produced query field (the code
never splices utterance text into it, and parameters travel only through
the separate binding channel); the no-inlining rule exists only as a line of
the generator prompt.  A collaborator that disobeys that prompt line can
therefore place raw utterance text in the executed statement. -/
theorem injection_safety_delegated_to_prompt (gen : GenBehavior) (db : DbBehavior)
    (nq : String) (q : SQLQuery) (hgen : generateSQLQuery gen nq = Except.ok q) :
    (executeSmartQuery gen db nq).2 =
      [CollabCall.genCall nq, CollabCall.dbCall q.query q.parameters] ∧
    sqlGeneratorInstructionLines.any
      (fun l => strContains l "NEVER include user input directly in the SQL string") = true :=
  ⟨executeSmartQuery_trace gen db nq q hgen, rfl⟩

/-- Witness for the C1 theorem at the spec's scenario-1 inputs. -/
theorem injection_safety_delegated_to_prompt_witness :
    (executeSmartQuery (fun _ => Except.ok genReplyGood) dbEmpty "show all users").2 =
      [CollabCall.genCall "show all users",
       CollabCall.dbCall
         (JsValue.val (Json.str "SELECT * FROM users ORDER BY created_at DESC LIMIT 100"))
         (JsValue.val (Json.arr []))] ∧
    sqlGeneratorInstructionLines.any
      (fun l => strContains l "NEVER include user input directly in the SQL string") = true :=
  injection_safety_delegated_to_prompt (fun _ => Except.ok genReplyGood) dbEmpty "show all users"
    { query := JsValue.val (Json.str "SELECT * FROM users ORDER BY created_at DESC LIMIT 100"),
      parameters := JsValue.val (Json.arr []),
      operation := JsValue.val (Json.str "SELECT"),
      explanation := JsValue.val (Json.str "list users") } rfl

/-- C1 counterexample: under a generation collaborator that echoes the
utterance's free text into the query field, the executed statement contains
that free text — and its DROP token — verbatim; nothing rejects it. -/
theorem injection_free_text_reaches_statement_counterexample :
    (executeSmartQuery (fun _ => Except.ok genReplyInject) dbEmpty injectionUtterance).2 =
      [CollabCall.genCall injectionUtterance,
       CollabCall.dbCall (JsValue.val (Json.str injectedStatement)) (JsValue.val (Json.arr []))] ∧
    strContains injectionUtterance "\x27; DROP TABLE users; \x2d\x2d" = true ∧
    strContains injectedStatement "\x27; DROP TABLE users; \x2d\x2d" = true ∧
    strContains injectedStatement "DROP" = true :=
  ⟨rfl, rfl, rfl, rfl⟩

/-- C2 (amended): no placeholder/parameter validation exists anywhere in the
pipeline — a generated query whose placeholder index set is not exactly
1..len(parameters) is still handed to the database collaborator; there is no
ParameterMismatchFailure pre-execution rejection (the database's own error,
if any, surfaces later through the ordinary failure envelope). -/
theorem no_placeholder_validation (gen : GenBehavior) (db : DbBehavior) (nq : String)
    (q : SQLQuery) (stmt : String) (ps : List Json)
    (hgen : generateSQLQuery gen nq = Except.ok q)
    (hq : q.query = JsValue.val (Json.str stmt))
    (hp : q.parameters = JsValue.val (Json.arr ps))
    (hbad : placeholdersMatch stmt ps.length = false) :
    CollabCall.dbCall q.query q.parameters ∈ (executeSmartQuery gen db nq).2 := by
  rw [executeSmartQuery_trace gen db nq q hgen]
  simp

/-- Witness for the C2 theorem: the statement referencing only $2 with a
single parameter is nevertheless executed. -/
theorem no_placeholder_validation_witness :
    placeholdersMatch "SELECT * FROM users WHERE id = $2" 1 = false ∧
    CollabCall.dbCall (JsValue.val (Json.str "SELECT * FROM users WHERE id = $2"))
        (JsValue.val (Json.arr [Json.num 5])) ∈
      (executeSmartQuery (fun _ => Except.ok genReplyMismatch) dbEmpty "get the user").2 :=
  ⟨rfl,
   no_placeholder_validation (fun _ => Except.ok genReplyMismatch) dbEmpty "get the user"
     { query := JsValue.val (Json.str "SELECT * FROM users WHERE id = $2"),
       parameters := JsValue.val (Json.arr [Json.num 5]),
       operation := JsValue.val (Json.str "SELECT"),
       explanation := JsValue.val (Json.str "get user") }
     "SELECT * FROM users WHERE id = $2" [Json.num 5] rfl rfl rfl rfl⟩

/-- C2 counterexample: a query with placeholder set \x7b2\x7d and one
parameter proceeds to execution and even yields a success envelope — it is
not rejected with ParameterMismatchFailure before execution. -/
theorem placeholder_mismatch_executed_counterexample :
    placeholdersMatch "SELECT * FROM users WHERE id = $2" 1 = false ∧
    (executeSmartQuery (fun _ => Except.ok genReplyMismatch) dbEmpty "get the user").2 =
      [CollabCall.genCall "get the user",
       CollabCall.dbCall (JsValue.val (Json.str "SELECT * FROM users WHERE id = $2"))
         (JsValue.val (Json.arr [Json.num 5]))] ∧
    (executeSmartQuery (fun _ => Except.ok genReplyMismatch) dbEmpty "get the user").1 =
      [("success", JsValue.val (Json.bool true)), ("users", JsValue.val (Json.arr [])),
       ("count", JsValue.val (Json.num 0)),
       ("message", JsValue.val (Json.str "Retrieved 0 users")),
       ("operation", JsValue.val (Json.str "SELECT"))] :=
  ⟨rfl, rfl, rfl⟩

/-- C3 (amended): the four-value operation whitelist exists only in the zod
schema and prompt handed to the generation collaborator; the runtime parse
(`JSON.parse` plus an unchecked cast) performs no check, so a payload whose
operation lies outside the closed set is executed rather than rejected with
UnsupportedOperationFailure. -/
theorem no_operation_validation (gen : GenBehavior) (db : DbBehavior) (nq : String)
    (q : SQLQuery) (hgen : generateSQLQuery gen nq = Except.ok q)
    (hbad : opAllowed q.operation = false) :
    CollabCall.dbCall q.query q.parameters ∈ (executeSmartQuery gen db nq).2 ∧
    allowedOperations = ["SELECT", "INSERT", "UPDATE", "DELETE"] := by
  refine ⟨?_, rfl⟩
  rw [executeSmartQuery_trace gen db nq q hgen]
  simp

/-- Witness for the C3 theorem: a TRUNCATE operation payload is executed. -/
theorem no_operation_validation_witness :
    opAllowed (JsValue.val (Json.str "TRUNCATE")) = false ∧
    (CollabCall.dbCall (JsValue.val (Json.str "TRUNCATE users")) (JsValue.val (Json.arr [])) ∈
        (executeSmartQuery (fun _ => Except.ok genReplyBadOp) dbEmpty "clear the table").2 ∧
      allowedOperations = ["SELECT", "INSERT", "UPDATE", "DELETE"]) :=
  ⟨rfl,
   no_operation_validation (fun _ => Except.ok genReplyBadOp) dbEmpty "clear the table"
     { query := JsValue.val (Json.str "TRUNCATE users"),
       parameters := JsValue.val (Json.arr []),
       operation := JsValue.val (Json.str "TRUNCATE"),
       explanation := JsValue.val (Json.str "clear") } rfl rfl⟩

/-- C3 counterexample: an operation value outside the closed set reaches
execution and is echoed back in a success envelope — no
UnsupportedOperationFailure is ever produced. -/
theorem unsupported_operation_executed_counterexample :
    opAllowed (JsValue.val (Json.str "TRUNCATE")) = false ∧
    (executeSmartQuery (fun _ => Except.ok genReplyBadOp) dbEmpty "clear the table").2 =
      [CollabCall.genCall "clear the table",
       CollabCall.dbCall (JsValue.val (Json.str "TRUNCATE users")) (JsValue.val (Json.arr []))] ∧
    (executeSmartQuery (fun _ => Except.ok genReplyBadOp) dbEmpty "clear the table").1 =
      [("success", JsValue.val (Json.bool true)), ("users", JsValue.val (Json.arr [])),
       ("count", JsValue.val (Json.num 0)),
       ("message", JsValue.val (Json.str "Retrieved 0 users")),
       ("operation", JsValue.val (Json.str "TRUNCATE"))] :=
  ⟨rfl, rfl, rfl⟩

/-- C4: whenever producing or parsing the SQLQuery fails (collaborator
error, non-JSON reply text, or a null payload), both tool variants return
the failure envelope carrying the error message and make no database call. -/
theorem generation_failure_never_reaches_db (gen : GenBehavior) (db : DbBehavior)
    (nq e : String) (h : generateSQLQuery gen nq = Except.error e) :
    executeSmartQuery gen db nq =
      ([("success", JsValue.val (Json.bool false)), ("error", JsValue.val (Json.str e))],
       [CollabCall.genCall nq]) ∧
    executeSmartQueryV0 gen db nq =
      ([("success", JsValue.val (Json.bool false)), ("error", JsValue.val (Json.str e))],
       [CollabCall.genCall nq]) := by
  unfold executeSmartQuery executeSmartQueryV0
  rw [h]
  exact ⟨rfl, rfl⟩

/-- Witness for the C4 theorem: a conversational non-JSON reply yields the
failure envelope with the parse error and an execution trace that contains
no database call. -/
theorem generation_failure_never_reaches_db_witness :
    executeSmartQuery (fun _ => Except.ok "I am sorry, I cannot do that.") dbEmpty "do magic" =
      ([("success", JsValue.val (Json.bool false)),
        ("error", JsValue.val (Json.str "Unexpected token in JSON"))],
       [CollabCall.genCall "do magic"]) ∧
    executeSmartQueryV0 (fun _ => Except.ok "I am sorry, I cannot do that.") dbEmpty "do magic" =
      ([("success", JsValue.val (Json.bool false)),
        ("error", JsValue.val (Json.str "Unexpected token in JSON"))],
       [CollabCall.genCall "do magic"]) :=
  generation_failure_never_reaches_db (fun _ => Except.ok "I am sorry, I cannot do that.")
    dbEmpty "do magic" "Unexpected token in JSON" rfl

/-- C5: a database-collaborator error is caught at the tool boundary in both
variants and converted into the failure envelope carrying the collaborator's
message verbatim — the functions are total, so no fault propagates. -/
theorem executor_catches_db_error (gen : GenBehavior) (db : DbBehavior) (nq : String)
    (q : SQLQuery) (msg : String) (hgen : generateSQLQuery gen nq = Except.ok q)
    (hdb : db q.query q.parameters = Except.error msg) :
    (executeSmartQuery gen db nq).1 =
      [("success", JsValue.val (Json.bool false)), ("error", JsValue.val (Json.str msg))] ∧
    (executeSmartQueryV0 gen db nq).1 =
      [("success", JsValue.val (Json.bool false)), ("error", JsValue.val (Json.str msg))] := by
  unfold executeSmartQuery executeSmartQueryV0
  rw [hgen]
  simp [hdb]

/-- Witness for the C5 theorem at a concrete constraint-violation message. -/
theorem executor_catches_db_error_witness :
    (executeSmartQuery (fun _ => Except.ok genReplyGood)
        (fun _ _ => Except.error "duplicate key value violates unique constraint") "show all users").1 =
      [("success", JsValue.val (Json.bool false)),
       ("error", JsValue.val (Json.str "duplicate key value violates unique constraint"))] ∧
    (executeSmartQueryV0 (fun _ => Except.ok genReplyGood)
        (fun _ _ => Except.error "duplicate key value violates unique constraint") "show all users").1 =
      [("success", JsValue.val (Json.bool false)),
       ("error", JsValue.val (Json.str "duplicate key value violates unique constraint"))] :=
  executor_catches_db_error (fun _ => Except.ok genReplyGood)
    (fun _ _ => Except.error "duplicate key value violates unique constraint") "show all users"
    { query := JsValue.val (Json.str "SELECT * FROM users ORDER BY created_at DESC LIMIT 100"),
      parameters := JsValue.val (Json.arr []),
      operation := JsValue.val (Json.str "SELECT"),
      explanation := JsValue.val (Json.str "list users") }
    "duplicate key value violates unique constraint" rfl rfl

/-- C6 (amended): on every successful execution the current tool variant
returns the ordered row set under the key `users` (there is no `rows` key),
`count` equal to the row count, and the payload's operation value echoed
unchanged; the earlier variant is identical except that it omits the
operation field altogether. -/
theorem success_envelope_shape (gen : GenBehavior) (db : DbBehavior) (nq : String)
    (q : SQLQuery) (rows : List Json) (hgen : generateSQLQuery gen nq = Except.ok q)
    (hdb : db q.query q.parameters = Except.ok rows) :
    (executeSmartQuery gen db nq).1 =
      [("success", JsValue.val (Json.bool true)),
       ("users", JsValue.val (Json.arr rows)),
       ("count", JsValue.val (Json.num (rows.length : Int))),
       ("message", JsValue.val (Json.str ("Retrieved " ++ toString rows.length ++ " users"))),
       ("operation", q.operation)] ∧
    jsLookup (executeSmartQuery gen db nq).1 "rows" = none ∧
    (executeSmartQueryV0 gen db nq).1 =
      [("success", JsValue.val (Json.bool true)),
       ("users", JsValue.val (Json.arr rows)),
       ("count", JsValue.val (Json.num (rows.length : Int))),
       ("message", JsValue.val (Json.str ("Retrieved " ++ toString rows.length ++ " users")))] ∧
    jsLookup (executeSmartQueryV0 gen db nq).1 "operation" = none := by
  have h1 : (executeSmartQuery gen db nq).1 =
      [("success", JsValue.val (Json.bool true)),
       ("users", JsValue.val (Json.arr rows)),
       ("count", JsValue.val (Json.num (rows.length : Int))),
       ("message", JsValue.val (Json.str ("Retrieved " ++ toString rows.length ++ " users"))),
       ("operation", q.operation)] := by
    unfold executeSmartQuery
    rw [hgen]
    simp [hdb]
  have h2 : (executeSmartQueryV0 gen db nq).1 =
      [("success", JsValue.val (Json.bool true)),
       ("users", JsValue.val (Json.arr rows)),
       ("count", JsValue.val (Json.num (rows.length : Int))),
       ("message", JsValue.val (Json.str ("Retrieved " ++ toString rows.length ++ " users")))] := by
    unfold executeSmartQueryV0
    rw [hgen]
    simp [hdb]
  refine ⟨h1, ?_, h2, ?_⟩
  · rw [h1]; rfl
  · rw [h2]; rfl

/-- Witness for the C6 theorem at a single-row result. -/
theorem success_envelope_shape_witness :
    (executeSmartQuery (fun _ => Except.ok genReplyGood)
        (fun _ _ => Except.ok [sampleUserRow]) "show all users").1 =
      [("success", JsValue.val (Json.bool true)),
       ("users", JsValue.val (Json.arr [sampleUserRow])),
       ("count", JsValue.val (Json.num 1)),
       ("message", JsValue.val (Json.str "Retrieved 1 users")),
       ("operation", JsValue.val (Json.str "SELECT"))] ∧
    jsLookup (executeSmartQuery (fun _ => Except.ok genReplyGood)
        (fun _ _ => Except.ok [sampleUserRow]) "show all users").1 "rows" = none ∧
    (executeSmartQueryV0 (fun _ => Except.ok genReplyGood)
        (fun _ _ => Except.ok [sampleUserRow]) "show all users").1 =
      [("success", JsValue.val (Json.bool true)),
       ("users", JsValue.val (Json.arr [sampleUserRow])),
       ("count", JsValue.val (Json.num 1)),
       ("message", JsValue.val (Json.str "Retrieved 1 users"))] ∧
    jsLookup (executeSmartQueryV0 (fun _ => Except.ok genReplyGood)
        (fun _ _ => Except.ok [sampleUserRow]) "show all users").1 "operation" = none :=
  success_envelope_shape (fun _ => Except.ok genReplyGood)
    (fun _ _ => Except.ok [sampleUserRow]) "show all users"
    { query := JsValue.val (Json.str "SELECT * FROM users ORDER BY created_at DESC LIMIT 100"),
      parameters := JsValue.val (Json.arr []),
      operation := JsValue.val (Json.str "SELECT"),
      explanation := JsValue.val (Json.str "list users") }
    [sampleUserRow] rfl rfl

/-- C6 counterexample: a concrete successful execution whose result has no
`rows` key (the row set travels under `users`), and whose earlier-variant
result does not echo `operation` at all. -/
theorem users_key_not_rows_counterexample :
    jsLookup (executeSmartQuery (fun _ => Except.ok genReplyGood)
        (fun _ _ => Except.ok [sampleUserRow]) "show all users").1 "success" =
      some (JsValue.val (Json.bool true)) ∧
    jsLookup (executeSmartQuery (fun _ => Except.ok genReplyGood)
        (fun _ _ => Except.ok [sampleUserRow]) "show all users").1 "rows" = none ∧
    jsLookup (executeSmartQuery (fun _ => Except.ok genReplyGood)
        (fun _ _ => Except.ok [sampleUserRow]) "show all users").1 "users" =
      some (JsValue.val (Json.arr [sampleUserRow])) ∧
    jsLookup (executeSmartQueryV0 (fun _ => Except.ok genReplyGood)
        (fun _ _ => Except.ok [sampleUserRow]) "show all users").1 "operation" = none :=
  ⟨rfl, rfl, rfl, rfl⟩

/-- C7 (amended): when the collaborator's reply is not parseable as JSON
after fence stripping, the first /api/command variant returns the 500
failure envelope with the parse error message (or the fixed fallback when
the message is empty); the second variant has no try/catch, so the same
situation propagates out of the handler as an unhandled fault rather than
an envelope. -/
theorem command_parse_failure_envelope (agent : GenBehavior) (input text e : String)
    (hag : agent input = Except.ok text)
    (hp : parseJson (stripFences text) = Except.error e) :
    apiCommandV1 agent input =
      (500, Json.obj [("success", Json.bool false), ("error", Json.str (commandErrMessage e))]) ∧
    apiCommandV2 agent input = Except.error e := by
  unfold apiCommandV1 apiCommandV2
  rw [hag]
  simp [hp]

/-- Witness for the C7 theorem at a concrete unparseable reply. -/
theorem command_parse_failure_envelope_witness :
    apiCommandV1 (fun _ => Except.ok "here you go") "list stuff" =
      (500, Json.obj [("success", Json.bool false),
        ("error", Json.str "Unexpected token in JSON")]) ∧
    apiCommandV2 (fun _ => Except.ok "here you go") "list stuff" =
      Except.error "Unexpected token in JSON" :=
  command_parse_failure_envelope (fun _ => Except.ok "here you go") "list stuff"
    "here you go" "Unexpected token in JSON" rfl rfl

/-- C7 counterexample: the second /api/command variant turns an unparseable
collaborator reply into an unhandled fault, not a failure envelope. -/
theorem command_v2_unhandled_fault_counterexample :
    apiCommandV2 (fun _ => Except.ok "Sure, deleted!") "delete user 3" =
      Except.error "Unexpected token in JSON" :=
  rfl

/-- C8 (amended): the first /api/command variant always responds, and every
response it constructs itself (the 500 error path) carries the boolean
success field set to false; but a success-path response body is the
collaborator's parsed JSON verbatim, which carries a success field only if
the collaborator put one there. -/
theorem command_envelope_success_field (agent : GenBehavior) (input : String) :
    (∃ e : String,
      apiCommandV1 agent input =
        (500, Json.obj [("success", Json.bool false), ("error", Json.str (commandErrMessage e))]) ∧
      jsonLookup (apiCommandV1 agent input).2 "success" = some (Json.bool false)) ∨
    (∃ text body, agent input = Except.ok text ∧
      parseJson (stripFences text) = Except.ok body ∧
      apiCommandV1 agent input = (200, body)) := by
  cases hag : agent input with
  | error e =>
    left
    have hr : apiCommandV1 agent input =
        (500, Json.obj [("success", Json.bool false),
          ("error", Json.str (commandErrMessage e))]) := by
      unfold apiCommandV1
      rw [hag]
    exact ⟨e, hr, by rw [hr]; rfl⟩
  | ok text =>
    cases hp : parseJson (stripFences text) with
    | error e =>
      left
      have hr : apiCommandV1 agent input =
          (500, Json.obj [("success", Json.bool false),
            ("error", Json.str (commandErrMessage e))]) := by
        unfold apiCommandV1
        rw [hag]
        simp [hp]
      exact ⟨e, hr, by rw [hr]; rfl⟩
    | ok body =>
      right
      refine ⟨text, body, hag ▸ rfl, hp, ?_⟩
      unfold apiCommandV1
      rw [hag]
      simp [hp]

/-- C8 counterexample: a collaborator reply that is valid JSON without any
success field is returned verbatim as a 200 response — the envelope reaching
the caller carries no boolean success at all. -/
theorem command_success_field_missing_counterexample :
    apiCommandV1 (fun _ => Except.ok "\x7b\"foo\": 1\x7d") "hello" =
      (200, Json.obj [("foo", Json.num 1)]) ∧
    jsonLookup (apiCommandV1 (fun _ => Except.ok "\x7b\"foo\": 1\x7d") "hello").2 "success" =
      none :=
  ⟨rfl, rfl⟩

/-- C9 (amended): the first /api/stats variant issues exactly the fixed
read-only statement through the database collaborator — its trace never
contains a generation call — and on a non-empty row set returns the
aggregate counts parsed from the first row; the second variant instead
consults the generation collaborator with the fixed prompt, so the
Interpreter is involved there. -/
theorem stats_fixed_query_vs_agent :
    (∀ db : DbBehavior, (apiStatsV1 db).2 =
      [CollabCall.dbCall (JsValue.val (Json.str statsQueryText)) (JsValue.val (Json.arr []))]) ∧
    (∀ (db : DbBehavior) (row : Json) (rest : List Json),
      db (JsValue.val (Json.str statsQueryText)) (JsValue.val (Json.arr [])) =
          Except.ok (row :: rest) →
      (apiStatsV1 db).1 = (200, Json.obj [("success", Json.bool true),
        ("stats", Json.obj
          [("total_users", parseIntJs (jsFieldD row "total_users")),
           ("recent_users", parseIntJs (jsFieldD row "recent_users")),
           ("today_users", parseIntJs (jsFieldD row "today_users"))])])) ∧
    (∀ gen : GenBehavior, (apiStatsV2 gen).2 =
      [CollabCall.genCall "Get database statistics"]) := by
  refine ⟨?_, ?_, ?_⟩
  · intro db
    unfold apiStatsV1
    cases hdb : db (JsValue.val (Json.str statsQueryText)) (JsValue.val (Json.arr [])) with
    | error e => simp
    | ok rows => cases rows <;> simp
  · intro db row rest hdb
    unfold apiStatsV1
    rw [hdb]
  · intro gen
    unfold apiStatsV2
    cases hg : gen "Get database statistics" with
    | error e => simp
    | ok text => cases hp : parseJson (stripFencesV2 text) <;> simp [hp]

/-- Witness for the C9 theorem at a concrete stats row: the counts come back
parsed from the numeric strings of the fixed query's first row. -/
theorem stats_fixed_query_vs_agent_witness :
    (apiStatsV1 (fun _ _ => Except.ok [statsRow])).1 =
      (200, Json.obj [("success", Json.bool true),
        ("stats", Json.obj [("total_users", Json.num 5), ("recent_users", Json.num 2),
          ("today_users", Json.num 1)])]) :=
  stats_fixed_query_vs_agent.2.1 (fun _ _ => Except.ok [statsRow]) statsRow [] rfl

/-- C9 counterexample: the second /api/stats variant calls the generation
collaborator (the Interpreter's model) instead of issuing a fixed read-only
statement — its trace is exactly that generation call. -/
theorem stats_v2_uses_generator_counterexample :
    (apiStatsV2 (fun _ => Except.ok "\x7b\"success\": true\x7d")).2 =
      [CollabCall.genCall "Get database statistics"] ∧
    (apiStatsV2 (fun _ => Except.ok "\x7b\"success\": true\x7d")).1 =
      (200, Json.obj [("success", Json.bool true)]) :=
  ⟨rfl, rfl⟩

/-- C10: on every successful execution, in both tool variants, the message
field is exactly the string "Retrieved N users" with N the row count — the
operation performed plays no role in the text. -/
theorem retrieved_users_message_always (gen : GenBehavior) (db : DbBehavior) (nq : String)
    (q : SQLQuery) (rows : List Json) (hgen : generateSQLQuery gen nq = Except.ok q)
    (hdb : db q.query q.parameters = Except.ok rows) :
    jsLookup (executeSmartQuery gen db nq).1 "message" =
      some (JsValue.val (Json.str ("Retrieved " ++ toString rows.length ++ " users"))) ∧
    jsLookup (executeSmartQuery gen db nq).1 "count" =
      some (JsValue.val (Json.num (rows.length : Int))) ∧
    jsLookup (executeSmartQueryV0 gen db nq).1 "message" =
      some (JsValue.val (Json.str ("Retrieved " ++ toString rows.length ++ " users"))) := by
  have h := success_envelope_shape gen db nq q rows hgen hdb
  refine ⟨?_, ?_, ?_⟩
  · rw [h.1]; rfl
  · rw [h.1]; rfl
  · rw [h.2.2.1]; rfl

/-- Witness for the C10 theorem at a DELETE payload: the message still reads
"Retrieved 0 users". -/
theorem retrieved_users_message_always_witness :
    jsLookup (executeSmartQuery (fun _ => Except.ok genReplyDelete) dbEmpty
        "delete user with id 5").1 "message" =
      some (JsValue.val (Json.str "Retrieved 0 users")) ∧
    jsLookup (executeSmartQuery (fun _ => Except.ok genReplyDelete) dbEmpty
        "delete user with id 5").1 "count" = some (JsValue.val (Json.num 0)) ∧
    jsLookup (executeSmartQueryV0 (fun _ => Except.ok genReplyDelete) dbEmpty
        "delete user with id 5").1 "message" =
      some (JsValue.val (Json.str "Retrieved 0 users")) :=
  retrieved_users_message_always (fun _ => Except.ok genReplyDelete) dbEmpty
    "delete user with id 5"
    { query := JsValue.val (Json.str "DELETE FROM users WHERE id = $1 RETURNING *"),
      parameters := JsValue.val (Json.arr [Json.num 5]),
      operation := JsValue.val (Json.str "DELETE"),
      explanation := JsValue.val (Json.str "delete user 5") }
    [] rfl rfl

end Voltagent
